import Mathlib

/-!
Verification of the LinkedIn job-search client (`src/linkedin_api.py`)
of the sap-job-finder repository.

We shallowly embed the JSON values the client manipulates, the response
normalizer `_parse_jobs`, the query-parameter construction, and the
outcome classification of `search_sap_jobs`.  Python-specific behaviour
(truthiness, `dict.get` default chains, `", ".join` raising on
non-string iterables, slicing raising on non-sliceable values, the
per-item `try/except: continue`) is modelled explicitly.
-/

namespace SapJobFinder

/-- JSON values, as produced by `response.json()` in Python
(`None`, `bool`, numbers, strings, lists, dicts). -/
inductive Json where
  | null : Json
  | bool (b : Bool) : Json
  | num (n : Int) : Json
  | str (s : String) : Json
  | arr (xs : List Json) : Json
  | obj (fields : List (String × Json)) : Json


/-- Dictionary lookup: last binding wins, as in Python json object decoding. -/
def lookup (fields : List (String × Json)) (k : String) : Option Json :=
  fields.foldl (fun acc p => if p.1 = k then some p.2 else acc) none

/-- Python `d.get(k, default)`. -/
def getD (fields : List (String × Json)) (k : String) (d : Json) : Json :=
  (lookup fields k).getD d

/-- Python `k in d`. -/
def hasKey (fields : List (String × Json)) (k : String) : Bool :=
  fields.any (fun p => p.1 = k)

/-- Python truthiness of a JSON value. -/
def truthy : Json → Bool
  | .null => false
  | .bool b => b
  | .num n => n != 0
  | .str s => s != ""
  | .arr xs => !xs.isEmpty
  | .obj fs => !fs.isEmpty

/-- Check a list of JSON values are all strings, extracting them;
`none` models the `TypeError` Python raises when `str.join` meets a
non-string element. -/
def asStrings : List Json → Option (List String)
  | [] => some []
  | .str s :: rest => (asStrings rest).map (fun ss => s :: ss)
  | _ :: _ => none

def joinComma (xs : List String) : String :=
  String.intercalate ", " xs

/-- Python `", ".join(v)`: iterating a list yields its elements, a
string yields its one-character substrings, a dict yields its keys;
anything else (or a non-string element) raises `TypeError` (`none`). -/
def pyJoin : Json → Option String
  | .arr xs => (asStrings xs).map joinComma
  | .str s => some (joinComma (s.data.map (fun c => String.mk [c])))
  | .obj fs => some (joinComma (fs.map (fun p => p.1)))
  | _ => none

/-- Python `", ".join(v[:2])`: slicing a list or string keeps the first
two elements; other values are not sliceable and raise (`none`). -/
def locJoin : Json → Option String
  | .arr xs => (asStrings (xs.take 2)).map joinComma
  | .str s => some (joinComma ((s.data.take 2).map (fun c => String.mk [c])))
  | _ => none

/-- The normalized job dictionary built by `_parse_jobs`.  Values are
copied from the raw payload without coercion, so each field is a JSON
value, not necessarily a string. -/
structure JobRecord where
  title : Json
  company : Json
  location : Json
  posted_date : Json
  description : Json
  apply_url : Json
  type : Json
  remote : Json
  salary : Json
  industry : Json


/-- The `location` derivation in `_parse_jobs`: `locations_derived`
(first two entries joined) if truthy, else a truthy `location` field
verbatim, else `"N/A"`.  `none` models an exception during the join. -/
def parseLocation (fs : List (String × Json)) : Option Json :=
  let ld := getD fs "locations_derived" .null
  if truthy ld then
    (locJoin ld).map Json.str
  else
    let l := getD fs "location" .null
    if truthy l then some l else some (.str "N/A")

/-- The `type` derivation: join a truthy `employment_type` with `", "`,
else `"N/A"`.  `none` models an exception during the join. -/
def parseType (fs : List (String × Json)) : Option Json :=
  let et := getD fs "employment_type" .null
  if truthy et then (pyJoin et).map Json.str else some (.str "N/A")

/-- One iteration of the `for job in job_list` loop body in
`_parse_jobs`: `none` means the item raised and is skipped
(`except Exception: continue`); non-dict items raise on `.get`. -/
def parseItem : Json → Option JobRecord
  | .obj fs => do
    let location ← parseLocation fs
    let ty ← parseType fs
    some
      { title := getD fs "title" (.str "N/A")
        company := getD fs "organization" (.str "N/A")
        location := location
        posted_date := getD fs "date_posted" (getD fs "posted_at" (.str "N/A"))
        description :=
          getD fs "description_text" (getD fs "description" (.str "No description available"))
        apply_url := getD fs "url" (getD fs "apply_url" (.str "#"))
        type := ty
        remote := getD fs "remote_derived" (getD fs "remote" (.bool false))
        salary := getD fs "salary_raw" (.str "Not specified")
        industry := getD fs "linkedin_org_industry" (.str "N/A") }
  | _ => none

/-- Python type names, used in `TypeError` messages. -/
def pyTypeName : Json → String
  | .null => "NoneType"
  | .bool _ => "bool"
  | .num _ => "int"
  | .str _ => "str"
  | .arr _ => "list"
  | .obj _ => "dict"

/-- Python iteration `for job in job_list`: a list yields its elements,
a dict its keys, a string its one-character substrings; other values
raise `TypeError` (`none`). -/
def iterElems : Json → Option (List Json)
  | .arr xs => some xs
  | .obj fs => some (fs.map (fun p => .str p.1))
  | .str s => some (s.data.map (fun c => .str (String.mk [c])))
  | _ => none

/-- `_parse_jobs`: choose the raw job list from the two recognised
top-level shapes (bare array, or dict with a `jobs` key), return `[]`
for any other top-level value, then fold the per-item parser over the
list, skipping failing items.  `.error` models an uncaught exception
inside `_parse_jobs` (iterating a non-iterable `jobs` member). -/
def parse_jobs (data : Json) : Except String (List JobRecord) :=
  match data with
  | .arr xs => .ok (xs.filterMap parseItem)
  | .obj fs =>
    if hasKey fs "jobs" then
      let jl := getD fs "jobs" .null
      match iterElems jl with
      | some items => .ok (items.filterMap parseItem)
      | none => .error ("'" ++ pyTypeName jl ++ "' object is not iterable")
    else
      .ok []
  | _ => .ok []

/-- The query-parameter dictionary built by `search_sap_jobs`
(insertion order preserved): the fixed parameters, then
`location_filter` when `location` is truthy and not `"All Locations"`,
then `remote` when the remote flag `is True`. -/
def build_params (location : Option String) (remote : Option Bool)
    (limit offset : Int) : List (String × Json) :=
  [("title_filter", .str "SAP"), ("limit", .num limit), ("offset", .num offset),
    ("description_type", .str "text")]
  ++ (match location with
      | some l => if l ≠ "" ∧ l ≠ "All Locations" then [("location_filter", .str l)] else []
      | none => [])
  ++ (if remote = some true then [("remote", .str "true")] else [])

/-- Outcome of the `requests.get` call and of `response.json()`:
a response with a status code, a body text and the JSON decode result,
or one of the exception classes the client catches. -/
inductive ReqOutcome where
  | resp (status : Nat) (text : String) (body : Except String Json) : ReqOutcome
  | timeout : ReqOutcome
  | reqExc (msg : String) : ReqOutcome
  | exc (msg : String) : ReqOutcome


/-- The dictionary `search_sap_jobs` returns.  `total` is present
(`some`) exactly on the success shape. -/
structure SearchResult where
  success : Bool
  error : Option String
  jobs : List JobRecord
  total : Option Nat


/-- `len(data) if isinstance(data, list) else 0` — the `total` reported
on a successful search. -/
def rawTotal : Json → Nat
  | .arr xs => xs.length
  | _ => 0

/-- `if not self.api_key or not self.api_host` — credentials are usable
when both are present and non-empty. -/
def credsOk (api_key api_host : Option String) : Bool :=
  match api_key, api_host with
  | some k, some h => k != "" && h != ""
  | _, _ => false

/-- `search_sap_jobs`: credential precondition, then classification of
the request outcome into the tagged result dictionaries of the source.
A JSON decode failure on a 200 response raises
`requests.exceptions.JSONDecodeError`, a `RequestException`, caught by
the network-error branch; an exception escaping `_parse_jobs` is caught
by the final catch-all branch. -/
def search_sap_jobs (api_key api_host : Option String)
    (outcome : ReqOutcome) : SearchResult :=
  if credsOk api_key api_host then
    match outcome with
    | .resp status text body =>
      if status = 200 then
        match body with
        | .ok data =>
          match parse_jobs data with
          | .ok js =>
            { success := true, error := none, jobs := js
              total := some (rawTotal data) }
          | .error m =>
            { success := false, error := some ("Unexpected error: " ++ m)
              jobs := [], total := none }
        | .error m =>
          { success := false, error := some ("Network error: " ++ m)
            jobs := [], total := none }
      else if status = 429 then
        { success := false
          error := some "Rate limit exceeded. Please wait a moment and try again."
          jobs := [], total := none }
      else
        { success := false
          error := some ("API error: " ++ toString status ++ " - " ++ text)
          jobs := [], total := none }
    | .timeout =>
      { success := false, error := some "Request timed out. Please try again."
        jobs := [], total := none }
    | .reqExc m =>
      { success := false, error := some ("Network error: " ++ m)
        jobs := [], total := none }
    | .exc m =>
      { success := false, error := some ("Unexpected error: " ++ m)
        jobs := [], total := none }
  else
    { success := false, error := some "API credentials not configured"
      jobs := [], total := none }

/-- The concrete raw job object of the spec's normalization example. -/
def goodJob : Json :=
  .obj [("title", .str "SAP Consultant"), ("organization", .str "Acme"),
    ("locations_derived", .arr [.str "Berlin", .str "Remote"]),
    ("remote_derived", .bool true)]

/-- The record `_parse_jobs` produces for `goodJob`. -/
def goodRecord : JobRecord :=
  { title := .str "SAP Consultant"
    company := .str "Acme"
    location := .str "Berlin, Remote"
    posted_date := .str "N/A"
    description := .str "No description available"
    apply_url := .str "#"
    type := .str "N/A"
    remote := .bool true
    salary := .str "Not specified"
    industry := .str "N/A" }

/-- A raw item whose field access raises: `locations_derived` is a
truthy integer, so `job["locations_derived"][:2]` raises `TypeError`. -/
def badJob : Json :=
  .obj [("locations_derived", .num 5)]

/-- The result returned when credentials are missing. -/
def noCredsResult : SearchResult :=
  { success := false
    error := some "API credentials not configured"
    jobs := []
    total := none }

/-- Discriminator: the JSON value is a string. -/
def isStr : Json → Bool
  | .str _ => true
  | _ => false

/-- Discriminator: the JSON value is a boolean. -/
def isBool : Json → Bool
  | .bool _ => true
  | _ => false

/-- Discriminator: `_parse_jobs` completed without raising. -/
def resOk : Except String (List JobRecord) → Bool
  | .ok _ => true
  | .error _ => false

/-- The key, when present, maps to a string. -/
def strOrAbsent (fs : List (String × Json)) (k : String) : Bool :=
  match lookup fs k with
  | some v => isStr v
  | none => true

/-- The key, when present, maps to an array of strings. -/
def strListOrAbsent (fs : List (String × Json)) (k : String) : Bool :=
  match lookup fs k with
  | some (.arr xs) => xs.all isStr
  | some _ => false
  | none => true

/-- The key, when present, maps to a boolean. -/
def boolOrAbsent (fs : List (String × Json)) (k : String) : Bool :=
  match lookup fs k with
  | some v => isBool v
  | none => true

/-- Every source field the normalizer reads has, when present, the JSON
type the upstream API documents for it. -/
def wellTyped (fs : List (String × Json)) : Bool :=
  strOrAbsent fs "title" &&
    (strOrAbsent fs "organization" &&
    (strOrAbsent fs "location" &&
    (strOrAbsent fs "date_posted" &&
    (strOrAbsent fs "posted_at" &&
    (strOrAbsent fs "description_text" &&
    (strOrAbsent fs "description" &&
    (strOrAbsent fs "url" &&
    (strOrAbsent fs "apply_url" &&
    (strOrAbsent fs "salary_raw" &&
    (strOrAbsent fs "linkedin_org_industry" &&
    (strListOrAbsent fs "locations_derived" &&
    (strListOrAbsent fs "employment_type" &&
    (boolOrAbsent fs "remote_derived" &&
      boolOrAbsent fs "remote")))))))))))))

/-- Every record field is a string, except `remote` which is a boolean. -/
def fieldsTyped (r : JobRecord) : Bool :=
  isStr r.title &&
    (isStr r.company &&
    (isStr r.location &&
    (isStr r.posted_date &&
    (isStr r.description &&
    (isStr r.apply_url &&
    (isStr r.type &&
    (isBool r.remote &&
    (isStr r.salary && isStr r.industry))))))))

/-! ### Helper lemmas -/

theorem getD_of_lookup_none (fs : List (String × Json)) (k : String) (d : Json)
    (h : lookup fs k = none) : getD fs k d = d := by
  simp [getD, h]

theorem credsOk_some (key host : String) (hkey : key ≠ "") (hhost : host ≠ "") :
    credsOk (some key) (some host) = true := by
  simp [credsOk, hkey, hhost]

/-! ### Claim theorems -/

/-- C4: if the API key or the API host is absent or empty, search
returns Failure with the exact message "API credentials not configured"
and performs no network call (the result does not depend on the
transport outcome). -/
theorem C4_missing_credentials (key host : Option String) (o o₂ : ReqOutcome)
    (h : credsOk key host = false) :
    search_sap_jobs key host o = noCredsResult ∧
    search_sap_jobs key host o = search_sap_jobs key host o₂ := by
  constructor <;> simp [search_sap_jobs, h, noCredsResult]

theorem C4_missing_credentials_witness :
    search_sap_jobs none (some "h") .timeout = noCredsResult ∧
    search_sap_jobs none (some "h") .timeout
      = search_sap_jobs none (some "h") (.exc "boom") :=
  C4_missing_credentials none (some "h") .timeout (.exc "boom") rfl

/-- C3: for every credential configuration and every outcome of the
underlying HTTP request, search returns a tagged result (success with no
error message, or failure with one) and never propagates an exception
(the embedding is a total function); an unexpected exception yields a
failure whose message is "Unexpected error: " followed by the details. -/
theorem C3_outcome_classification :
    (∀ (key host : Option String) (o : ReqOutcome),
      ((search_sap_jobs key host o).success = true ∧
        (search_sap_jobs key host o).error = none) ∨
      ((search_sap_jobs key host o).success = false ∧
        ∃ m, (search_sap_jobs key host o).error = some m)) ∧
    (∀ (key host : Option String) (m : String), credsOk key host = true →
      (search_sap_jobs key host (.exc m)).error
        = some ("Unexpected error: " ++ m)) := by
  constructor
  · intro key host o
    unfold search_sap_jobs
    repeat' split
    all_goals simp
  · intro key host m h
    simp [search_sap_jobs, h]

theorem C3_outcome_classification_witness :
    (((search_sap_jobs (some "k") (some "h") .timeout).success = true ∧
      (search_sap_jobs (some "k") (some "h") .timeout).error = none) ∨
     ((search_sap_jobs (some "k") (some "h") .timeout).success = false ∧
      ∃ m, (search_sap_jobs (some "k") (some "h") .timeout).error = some m)) ∧
    (search_sap_jobs (some "k") (some "h") (.exc "boom")).error
      = some ("Unexpected error: " ++ "boom") :=
  ⟨C3_outcome_classification.1 (some "k") (some "h") .timeout,
   C3_outcome_classification.2 (some "k") (some "h") "boom" rfl⟩

/-- C10: every failure outcome of search carries an empty jobs list. -/
theorem C10_failure_empty_jobs (key host : Option String) (o : ReqOutcome)
    (h : (search_sap_jobs key host o).success = false) :
    (search_sap_jobs key host o).jobs = [] := by
  revert h
  unfold search_sap_jobs
  repeat' split
  all_goals intro h
  all_goals simp_all

theorem C10_failure_empty_jobs_witness :
    (search_sap_jobs (some "k") (some "h") .timeout).jobs = [] :=
  C10_failure_empty_jobs (some "k") (some "h") .timeout rfl

/-- C7: the built request parameters include a remote filter parameter
if and only if the remote flag is exactly `some true`. -/
theorem C7_remote_parameter (location : Option String) (remote : Option Bool)
    (limit offset : Int) :
    hasKey (build_params location remote limit offset) "remote" = true ↔
      remote = some true := by
  rcases remote with _ | b
  · rcases location with _ | l
    · simp [build_params, hasKey]
    · by_cases hc : l ≠ "" ∧ l ≠ "All Locations" <;>
        simp [build_params, hasKey, hc]
  · rcases b
    · rcases location with _ | l
      · simp [build_params, hasKey]
      · by_cases hc : l ≠ "" ∧ l ≠ "All Locations" <;>
          simp [build_params, hasKey, hc]
    · rcases location with _ | l
      · simp [build_params, hasKey]
      · by_cases hc : l ≠ "" ∧ l ≠ "All Locations" <;>
          simp [build_params, hasKey, hc]

/-- C8: the built request parameters include a location filter
parameter if and only if the location is present, non-empty, and not
the sentinel "All Locations". -/
theorem C8_location_parameter (location : Option String) (remote : Option Bool)
    (limit offset : Int) :
    hasKey (build_params location remote limit offset) "location_filter" = true ↔
      ∃ l, location = some l ∧ l ≠ "" ∧ l ≠ "All Locations" := by
  rcases location with _ | l
  · by_cases hr : remote = some true <;> simp [build_params, hasKey, hr]
  · by_cases hc : l ≠ "" ∧ l ≠ "All Locations" <;>
      by_cases hr : remote = some true <;>
        simp [build_params, hasKey, hc, hr]

/-- C9: normalizing the spec's example raw input yields exactly one
JobRecord with location "Berlin, Remote", company "Acme", remote true
and salary "Not specified". -/
theorem C9_example_normalization :
    parse_jobs (.arr [goodJob]) = .ok [goodRecord] ∧
    goodRecord.location = .str "Berlin, Remote" ∧
    goodRecord.company = .str "Acme" ∧
    goodRecord.remote = .bool true ∧
    goodRecord.salary = .str "Not specified" :=
  ⟨rfl, rfl, rfl, rfl, rfl⟩

/-- C5: an item whose field extraction raises is skipped without
aborting the batch — the normalizer returns exactly the records of the
remaining items, in order, and the search still returns Success. -/
theorem C5_skip_bad_item (pre post : List Json) (bad : Json)
    (hbad : parseItem bad = none) (key host text : String)
    (hkey : key ≠ "") (hhost : host ≠ "") :
    parse_jobs (.arr (pre ++ bad :: post)) = parse_jobs (.arr (pre ++ post)) ∧
    (search_sap_jobs (some key) (some host)
      (.resp 200 text (.ok (.arr (pre ++ bad :: post))))).success = true := by
  have hcreds := credsOk_some key host hkey hhost
  constructor
  · simp [parse_jobs, List.filterMap_append, List.filterMap_cons, hbad]
  · simp [search_sap_jobs, hcreds, parse_jobs]

theorem C5_skip_bad_item_witness :
    parse_jobs (.arr ([goodJob] ++ badJob :: [])) =
      parse_jobs (.arr ([goodJob] ++ [])) ∧
    (search_sap_jobs (some "k") (some "h")
      (.resp 200 "" (.ok (.arr ([goodJob] ++ badJob :: []))))).success = true :=
  C5_skip_bad_item [goodJob] [] badJob rfl "k" "h" "" (by decide) (by decide)

/-- C1 fails on the code: for the object-with-jobs-array payload shape,
`total` is 0 even though the raw list the normalizer processed has one
element (which is successfully parsed). -/
theorem C1_counterexample :
    (search_sap_jobs (some "k") (some "h")
      (.resp 200 "" (.ok (.obj [("jobs", .arr [goodJob])])))).success = true ∧
    (search_sap_jobs (some "k") (some "h")
      (.resp 200 "" (.ok (.obj [("jobs", .arr [goodJob])])))).total = some 0 ∧
    (search_sap_jobs (some "k") (some "h")
      (.resp 200 "" (.ok (.obj [("jobs", .arr [goodJob])])))).jobs = [goodRecord] :=
  ⟨rfl, rfl, rfl⟩

/-- C1 amended: for every successful search, `total` equals the length
of the raw response list only when the raw payload is a bare array; for
any other payload shape, including an object containing a jobs array,
`total` is 0. -/
theorem C1_total_raw_length (key host text : String)
    (hkey : key ≠ "") (hhost : host ≠ "") (data : Json) (n : Nat)
    (h : (search_sap_jobs (some key) (some host)
      (.resp 200 text (.ok data))).total = some n) :
    n = rawTotal data := by
  have hcreds := credsOk_some key host hkey hhost
  cases data with
  | obj fs =>
    simp [search_sap_jobs, hcreds] at h
    cases hp : parse_jobs (.obj fs) with
    | ok js => rw [hp] at h; simp [rawTotal] at h ⊢; omega
    | error m => rw [hp] at h; simp at h
  | arr xs => simp [search_sap_jobs, hcreds, parse_jobs, rawTotal] at h ⊢; omega
  | null => simp [search_sap_jobs, hcreds, parse_jobs, rawTotal] at h ⊢; omega
  | bool b => simp [search_sap_jobs, hcreds, parse_jobs, rawTotal] at h ⊢; omega
  | num m => simp [search_sap_jobs, hcreds, parse_jobs, rawTotal] at h ⊢; omega
  | str s => simp [search_sap_jobs, hcreds, parse_jobs, rawTotal] at h ⊢; omega

theorem C1_total_raw_length_witness :
    (1 : Nat) = rawTotal (.arr [goodJob]) :=
  C1_total_raw_length "k" "h" "" (by decide) (by decide) (.arr [goodJob]) 1 rfl

/-- C6 fails on the code: an object whose `jobs` member is a number is
neither a bare array nor an object containing a jobs array, yet the
normalizer raises (iterating a non-iterable) instead of returning an
empty sequence. -/
theorem C6_counterexample :
    parse_jobs (.obj [("jobs", .num 5)])
      = .error "'int' object is not iterable" := rfl

/-- C6 amended: the normalizer accepts a bare array and an object whose
`jobs` member is an array; a top-level value that is neither an array
nor an object containing a `jobs` key yields an empty sequence, not an
error; but an object whose `jobs` member is a non-iterable value makes
the normalizer raise instead (surfaced by search as an unexpected-error
failure). -/
theorem C6_accepted_shapes :
    (∀ xs : List Json, resOk (parse_jobs (.arr xs)) = true) ∧
    (∀ (fs : List (String × Json)) (xs : List Json),
      lookup fs "jobs" = some (.arr xs) → hasKey fs "jobs" = true →
      resOk (parse_jobs (.obj fs)) = true) ∧
    (parse_jobs .null = .ok []) ∧
    (∀ b, parse_jobs (.bool b) = .ok []) ∧
    (∀ n, parse_jobs (.num n) = .ok []) ∧
    (∀ s, parse_jobs (.str s) = .ok []) ∧
    (∀ fs : List (String × Json), hasKey fs "jobs" = false →
      parse_jobs (.obj fs) = .ok []) := by
  refine ⟨fun xs => rfl, fun fs xs hl hk => ?_, rfl, fun b => rfl,
    fun n => rfl, fun s => rfl, fun fs hk => ?_⟩
  · simp [parse_jobs, hk, getD, hl, iterElems, resOk]
  · simp [parse_jobs, hk]

theorem C6_accepted_shapes_witness :
    resOk (parse_jobs (.obj [("jobs", .arr [goodJob])])) = true ∧
    parse_jobs (.obj [("name", .str "x")]) = .ok [] :=
  ⟨C6_accepted_shapes.2.1 [("jobs", .arr [goodJob])] [goodJob] rfl rfl,
   C6_accepted_shapes.2.2.2.2.2.2 [("name", .str "x")] rfl⟩

/-- C2 fails on the code: a raw item whose `remote_derived` is the
string "yes" is accepted, and the produced record's `remote` field is
that string, not a boolean — raw values are copied without coercion. -/
theorem C2_counterexample :
    (parseItem (.obj [("remote_derived", .str "yes")])).map
      (fun r => isBool r.remote) = some false ∧
    (parseItem (.obj [("remote_derived", .str "yes")])).map
      (fun r => isStr r.remote) = some true :=
  ⟨rfl, rfl⟩

theorem isStr_getD (fs : List (String × Json)) (k : String) (d : Json)
    (h : strOrAbsent fs k = true) (hd : isStr d = true) :
    isStr (getD fs k d) = true := by
  unfold strOrAbsent at h
  cases hl : lookup fs k with
  | none => simpa [getD, hl]
  | some v => rw [hl] at h; simpa [getD, hl]

theorem isBool_getD (fs : List (String × Json)) (k : String) (d : Json)
    (h : boolOrAbsent fs k = true) (hd : isBool d = true) :
    isBool (getD fs k d) = true := by
  unfold boolOrAbsent at h
  cases hl : lookup fs k with
  | none => simpa [getD, hl]
  | some v => rw [hl] at h; simpa [getD, hl]

theorem asStrings_all (xs : List Json) (h : xs.all isStr = true) :
    ∃ ss, asStrings xs = some ss := by
  induction xs with
  | nil => exact ⟨[], rfl⟩
  | cons x rest ih =>
    rw [List.all_cons, Bool.and_eq_true] at h
    obtain ⟨hx, hrest⟩ := h
    obtain ⟨ss, hss⟩ := ih hrest
    cases x with
    | str s => exact ⟨s :: ss, by simp [asStrings, hss]⟩
    | null => simp [isStr] at hx
    | bool b => simp [isStr] at hx
    | num n => simp [isStr] at hx
    | arr ys => simp [isStr] at hx
    | obj gs => simp [isStr] at hx

theorem parseLocation_isStr (fs : List (String × Json))
    (h1 : strListOrAbsent fs "locations_derived" = true)
    (h2 : strOrAbsent fs "location" = true) :
    ∃ s, parseLocation fs = some (.str s) := by
  unfold strListOrAbsent at h1
  unfold strOrAbsent at h2
  have fallback : ∃ s,
      (if truthy (getD fs "location" .null) = true
        then some (getD fs "location" .null)
        else some (Json.str "N/A")) = some (Json.str s) := by
    cases hl : lookup fs "location" with
    | none => exact ⟨"N/A", by simp [getD, hl, truthy]⟩
    | some v =>
      rw [hl] at h2
      cases v with
      | str s =>
        by_cases hs : s = ""
        · exact ⟨"N/A", by simp [getD, hl, truthy, hs]⟩
        · exact ⟨s, by simp [getD, hl, truthy, hs]⟩
      | null => simp [isStr] at h2
      | bool b => simp [isStr] at h2
      | num n => simp [isStr] at h2
      | arr ys => simp [isStr] at h2
      | obj gs => simp [isStr] at h2
  cases hld : lookup fs "locations_derived" with
  | none =>
    obtain ⟨s, hs⟩ := fallback
    exact ⟨s, by simp only [parseLocation, getD, hld, Option.getD_none, truthy,
      Bool.false_eq_true, if_false]; simpa [getD] using hs⟩
  | some v =>
    rw [hld] at h1
    cases v with
    | arr xs =>
      by_cases hxs : xs.isEmpty
      · obtain ⟨s, hs⟩ := fallback
        exact ⟨s, by simp only [parseLocation, getD, hld, Option.getD_some, truthy,
          hxs, Bool.not_true, Bool.false_eq_true, if_false]; simpa [getD] using hs⟩
      · have htk : (xs.take 2).all isStr = true := by
          rw [List.all_eq_true] at h1 ⊢
          exact fun x hx => h1 x (List.mem_of_mem_take hx)
        obtain ⟨ss, hss⟩ := asStrings_all (xs.take 2) htk
        refine ⟨joinComma ss, ?_⟩
        simp [parseLocation, getD, hld, truthy, hxs, locJoin, hss]
    | null => simp at h1
    | bool b => simp at h1
    | num n => simp at h1
    | str s => simp at h1
    | obj gs => simp at h1

theorem parseType_isStr (fs : List (String × Json))
    (h : strListOrAbsent fs "employment_type" = true) :
    ∃ s, parseType fs = some (.str s) := by
  unfold strListOrAbsent at h
  cases het : lookup fs "employment_type" with
  | none => exact ⟨"N/A", by simp [parseType, getD, het, truthy]⟩
  | some v =>
    rw [het] at h
    cases v with
    | arr xs =>
      by_cases hxs : xs.isEmpty
      · exact ⟨"N/A", by simp [parseType, getD, het, truthy, hxs]⟩
      · obtain ⟨ss, hss⟩ := asStrings_all xs h
        refine ⟨joinComma ss, ?_⟩
        simp [parseType, getD, het, truthy, hxs, pyJoin, hss]
    | null => simp at h
    | bool b => simp at h
    | num n => simp at h
    | str s => simp at h
    | obj gs => simp at h

theorem parseLocation_default (fs : List (String × Json))
    (h1 : lookup fs "locations_derived" = none)
    (h2 : lookup fs "location" = none) :
    parseLocation fs = some (.str "N/A") := by
  simp [parseLocation, getD, h1, h2, truthy]

theorem parseType_default (fs : List (String × Json))
    (h : lookup fs "employment_type" = none) :
    parseType fs = some (.str "N/A") := by
  simp [parseType, getD, h, truthy]

/-- C2 amended: for every raw job object the normalizer accepts whose
present fields carry their expected JSON types, every field of the
produced JobRecord is a string except `remote`, which is a boolean
(present raw values are copied without coercion, so an ill-typed
present field propagates into the record as-is); when the source
payload omits a field, the defined fallback value ("N/A",
"No description available", "#", "Not specified", false) is used and
the record is still produced, never rejected for missing optional
fields. -/
theorem C2_record_fields (fs : List (String × Json)) (h : wellTyped fs = true) :
    ((parseItem (.obj fs)).map fieldsTyped = some true) ∧
    (lookup fs "title" = none →
      (parseItem (.obj fs)).map JobRecord.title = some (.str "N/A")) ∧
    (lookup fs "organization" = none →
      (parseItem (.obj fs)).map JobRecord.company = some (.str "N/A")) ∧
    (lookup fs "locations_derived" = none → lookup fs "location" = none →
      (parseItem (.obj fs)).map JobRecord.location = some (.str "N/A")) ∧
    (lookup fs "date_posted" = none → lookup fs "posted_at" = none →
      (parseItem (.obj fs)).map JobRecord.posted_date = some (.str "N/A")) ∧
    (lookup fs "description_text" = none → lookup fs "description" = none →
      (parseItem (.obj fs)).map JobRecord.description
        = some (.str "No description available")) ∧
    (lookup fs "url" = none → lookup fs "apply_url" = none →
      (parseItem (.obj fs)).map JobRecord.apply_url = some (.str "#")) ∧
    (lookup fs "employment_type" = none →
      (parseItem (.obj fs)).map JobRecord.type = some (.str "N/A")) ∧
    (lookup fs "remote_derived" = none → lookup fs "remote" = none →
      (parseItem (.obj fs)).map JobRecord.remote = some (.bool false)) ∧
    (lookup fs "salary_raw" = none →
      (parseItem (.obj fs)).map JobRecord.salary = some (.str "Not specified")) ∧
    (lookup fs "linkedin_org_industry" = none →
      (parseItem (.obj fs)).map JobRecord.industry = some (.str "N/A")) := by
  unfold wellTyped at h
  simp only [Bool.and_eq_true] at h
  obtain ⟨hTitle, hOrg, hLoc, hDp, hPa, hDt, hDesc, hUrl, hAu, hSal, hInd,
    hLd, hEt, hRd, hRem⟩ := h
  obtain ⟨ls, hls⟩ := parseLocation_isStr fs hLd hLoc
  obtain ⟨ts, hts⟩ := parseType_isStr fs hEt
  have hitem : parseItem (.obj fs) = some
      { title := getD fs "title" (.str "N/A")
        company := getD fs "organization" (.str "N/A")
        location := .str ls
        posted_date := getD fs "date_posted" (getD fs "posted_at" (.str "N/A"))
        description := getD fs "description_text"
          (getD fs "description" (.str "No description available"))
        apply_url := getD fs "url" (getD fs "apply_url" (.str "#"))
        type := .str ts
        remote := getD fs "remote_derived" (getD fs "remote" (.bool false))
        salary := getD fs "salary_raw" (.str "Not specified")
        industry := getD fs "linkedin_org_industry" (.str "N/A") } := by
    simp [parseItem, hls, hts]
  rw [hitem]
  refine ⟨?_, ?_, ?_, ?_, ?_, ?_, ?_, ?_, ?_, ?_, ?_⟩
  · have t1 := isStr_getD fs "title" (.str "N/A") hTitle rfl
    have t2 := isStr_getD fs "organization" (.str "N/A") hOrg rfl
    have t4 := isStr_getD fs "date_posted" _ hDp
      (isStr_getD fs "posted_at" (.str "N/A") hPa rfl)
    have t5 := isStr_getD fs "description_text" _ hDt
      (isStr_getD fs "description" (.str "No description available") hDesc rfl)
    have t6 := isStr_getD fs "url" _ hUrl
      (isStr_getD fs "apply_url" (.str "#") hAu rfl)
    have t8 := isBool_getD fs "remote_derived" _ hRd
      (isBool_getD fs "remote" (.bool false) hRem rfl)
    have t9 := isStr_getD fs "salary_raw" (.str "Not specified") hSal rfl
    have t10 := isStr_getD fs "linkedin_org_industry" (.str "N/A") hInd rfl
    have t3 : isStr (Json.str ls) = true := rfl
    have t7 : isStr (Json.str ts) = true := rfl
    simp [fieldsTyped, t1, t2, t3, t4, t5, t6, t7, t8, t9, t10]
  · intro h1
    simp [getD_of_lookup_none _ _ _ h1]
  · intro h1
    simp [getD_of_lookup_none _ _ _ h1]
  · intro h1 h2
    have hd := parseLocation_default fs h1 h2
    rw [hls] at hd
    simp only [Option.some.injEq, Json.str.injEq] at hd
    subst hd
    simp
  · intro h1 h2
    simp [getD_of_lookup_none _ _ _ h1, getD_of_lookup_none _ _ _ h2]
  · intro h1 h2
    simp [getD_of_lookup_none _ _ _ h1, getD_of_lookup_none _ _ _ h2]
  · intro h1 h2
    simp [getD_of_lookup_none _ _ _ h1, getD_of_lookup_none _ _ _ h2]
  · intro h1
    have hd := parseType_default fs h1
    rw [hts] at hd
    simp only [Option.some.injEq, Json.str.injEq] at hd
    subst hd
    simp
  · intro h1 h2
    simp [getD_of_lookup_none _ _ _ h1, getD_of_lookup_none _ _ _ h2]
  · intro h1
    simp [getD_of_lookup_none _ _ _ h1]
  · intro h1
    simp [getD_of_lookup_none _ _ _ h1]

theorem C2_record_fields_witness :
    ((parseItem (.obj ([] : List (String × Json)))).map fieldsTyped = some true) ∧
    ((parseItem (.obj ([] : List (String × Json)))).map JobRecord.title
      = some (.str "N/A")) ∧
    ((parseItem (.obj ([] : List (String × Json)))).map JobRecord.company
      = some (.str "N/A")) ∧
    ((parseItem (.obj ([] : List (String × Json)))).map JobRecord.location
      = some (.str "N/A")) ∧
    ((parseItem (.obj ([] : List (String × Json)))).map JobRecord.posted_date
      = some (.str "N/A")) ∧
    ((parseItem (.obj ([] : List (String × Json)))).map JobRecord.description
      = some (.str "No description available")) ∧
    ((parseItem (.obj ([] : List (String × Json)))).map JobRecord.apply_url
      = some (.str "#")) ∧
    ((parseItem (.obj ([] : List (String × Json)))).map JobRecord.type
      = some (.str "N/A")) ∧
    ((parseItem (.obj ([] : List (String × Json)))).map JobRecord.remote
      = some (.bool false)) ∧
    ((parseItem (.obj ([] : List (String × Json)))).map JobRecord.salary
      = some (.str "Not specified")) ∧
    ((parseItem (.obj ([] : List (String × Json)))).map JobRecord.industry
      = some (.str "N/A")) :=
  ⟨(C2_record_fields [] rfl).1,
   (C2_record_fields [] rfl).2.1 rfl,
   (C2_record_fields [] rfl).2.2.1 rfl,
   (C2_record_fields [] rfl).2.2.2.1 rfl rfl,
   (C2_record_fields [] rfl).2.2.2.2.1 rfl rfl,
   (C2_record_fields [] rfl).2.2.2.2.2.1 rfl rfl,
   (C2_record_fields [] rfl).2.2.2.2.2.2.1 rfl rfl,
   (C2_record_fields [] rfl).2.2.2.2.2.2.2.1 rfl,
   (C2_record_fields [] rfl).2.2.2.2.2.2.2.2.1 rfl rfl,
   (C2_record_fields [] rfl).2.2.2.2.2.2.2.2.2.1 rfl,
   (C2_record_fields [] rfl).2.2.2.2.2.2.2.2.2.2 rfl⟩

end SapJobFinder
